import Mathlib

/-!
# Verification of the thecompaniesapi Python SDK client

Shallow embedding of `src/thecompaniesapi/sdk.py`: the `HttpClient` transport
(query-parameter serialization, retry configuration, response handling) and the
`Client` dispatch layer (dynamic operation resolution, path-template
substitution, routing of call arguments to query or body).

Python dictionaries are modelled as association lists with the usual
unique-key reading; iteration order is insertion order, as in Python.
-/

namespace TheCompaniesApi

/-- JSON-like Python values: the values that can appear in an operation's
keyword arguments (`None`, `bool`, `int`, `str`, `list`, `dict`). -/
inductive Value where
  | vNull : Value
  | vBool : Bool → Value
  | vInt : Int → Value
  | vStr : String → Value
  | vArr : List Value → Value
  | vObj : List (String × Value) → Value

/-- Is this value Python's `None`? -/
def Value.isNull : Value → Bool
  | .vNull => true
  | _ => false

/-- Lowercase hexadecimal digit: `0`-`9` then `a`-`f`. -/
def hexL (n : Nat) : Char :=
  if n < 10 then Char.ofNat (48 + n) else Char.ofNat (87 + n)

/-- Uppercase hexadecimal digit: `0`-`9` then `A`-`F`. -/
def hexU (n : Nat) : Char :=
  if n < 10 then Char.ofNat (48 + n) else Char.ofNat (55 + n)

/-- One character of Python `repr` of a string, escaped relative to the chosen
quote character `q` (printable-ASCII model of CPython's string repr). -/
def pyCharEscape (q : Char) (c : Char) : String :=
  if c = '\\' then "\\\\"
  else if c = q then "\\" ++ String.singleton q
  else if c = '\n' then "\\n"
  else if c = '\r' then "\\r"
  else if c = '\t' then "\\t"
  else if c.toNat < 0x20 || c.toNat == 0x7f then
    String.mk ['\\', 'x', hexL (c.toNat / 16), hexL (c.toNat % 16)]
  else String.singleton c

/-- Python `repr` of a string: single quotes, unless the string contains a
single quote and no double quote. -/
def pyReprStr (s : String) : String :=
  let q := if s.data.contains '\'' && !s.data.contains '"' then '"' else '\''
  String.singleton q ++ String.join (s.data.map (pyCharEscape q)) ++ String.singleton q

mutual

/-- Python `repr` of a value (`repr(v)`), used by `str` inside containers. -/
def pyRepr : Value → String
  | .vNull => "None"
  | .vBool true => "True"
  | .vBool false => "False"
  | .vInt n => toString n
  | .vStr s => pyReprStr s
  | .vArr xs => "[" ++ pyReprArr xs ++ "]"
  | .vObj fs => "\x7b" ++ pyReprObj fs ++ "\x7d"

def pyReprArr : List Value → String
  | [] => ""
  | [x] => pyRepr x
  | x :: y :: xs => pyRepr x ++ ", " ++ pyReprArr (y :: xs)

def pyReprObj : List (String × Value) → String
  | [] => ""
  | [kv] => pyReprStr kv.1 ++ ": " ++ pyRepr kv.2
  | kv :: kv2 :: xs => pyReprStr kv.1 ++ ": " ++ pyRepr kv.2 ++ ", " ++ pyReprObj (kv2 :: xs)

end

/-- Python `str(v)`: the identity on strings, `repr` otherwise. -/
def pyStr : Value → String
  | .vStr s => s
  | v => pyRepr v

/-- `\uXXXX` escape with four lowercase hex digits, as produced by
`json.dumps` with `ensure_ascii=True`. -/
def uEscape (n : Nat) : String :=
  String.mk ['\\', 'u', hexL (n / 4096 % 16), hexL (n / 256 % 16), hexL (n / 16 % 16), hexL (n % 16)]

/-- One character of a JSON-encoded string under `ensure_ascii=True`:
the two-character escapes, printable ASCII verbatim, everything else as
`\uXXXX` (surrogate pairs above the BMP). -/
def jsonEscapeChar (c : Char) : String :=
  if c = '"' then "\\\""
  else if c = '\\' then "\\\\"
  else if c = '\x08' then "\\b"
  else if c = '\x09' then "\\t"
  else if c = '\x0a' then "\\n"
  else if c = '\x0c' then "\\f"
  else if c = '\x0d' then "\\r"
  else if 0x20 ≤ c.toNat && c.toNat ≤ 0x7e then String.singleton c
  else if c.toNat < 0x10000 then uEscape c.toNat
  else
    uEscape (0xd800 + (c.toNat - 0x10000) / 0x400) ++
    uEscape (0xdc00 + (c.toNat - 0x10000) % 0x400)

/-- JSON encoding of a string literal. -/
def jsonQuoteStr (s : String) : String :=
  "\"" ++ String.join (s.data.map jsonEscapeChar) ++ "\""

mutual

/-- `json.dumps(v, separators=(',', ':'))`: compact JSON text with no spaces
after separators, ASCII-only escaping. -/
def json_dumps : Value → String
  | .vNull => "null"
  | .vBool true => "true"
  | .vBool false => "false"
  | .vInt n => toString n
  | .vStr s => jsonQuoteStr s
  | .vArr xs => "[" ++ jsonDumpsArr xs ++ "]"
  | .vObj fs => "\x7b" ++ jsonDumpsObj fs ++ "\x7d"

def jsonDumpsArr : List Value → String
  | [] => ""
  | [x] => json_dumps x
  | x :: y :: xs => json_dumps x ++ "," ++ jsonDumpsArr (y :: xs)

def jsonDumpsObj : List (String × Value) → String
  | [] => ""
  | [kv] => jsonQuoteStr kv.1 ++ ":" ++ json_dumps kv.2
  | kv :: kv2 :: xs => jsonQuoteStr kv.1 ++ ":" ++ json_dumps kv.2 ++ "," ++ jsonDumpsObj (kv2 :: xs)

end

/-- UTF-8 bytes of a character, as natural numbers. -/
def utf8Bytes (c : Char) : List Nat :=
  let n := c.toNat
  if n < 0x80 then [n]
  else if n < 0x800 then [0xc0 + n / 0x40, 0x80 + n % 0x40]
  else if n < 0x10000 then
    [0xe0 + n / 0x1000, 0x80 + (n / 0x40) % 0x40, 0x80 + n % 0x40]
  else
    [0xf0 + n / 0x40000, 0x80 + (n / 0x1000) % 0x40, 0x80 + (n / 0x40) % 0x40, 0x80 + n % 0x40]

/-- Characters `urllib.parse.quote` leaves unencoded with the default
`safe='/'`: ASCII letters, digits, `_ . - ~` and `/`. -/
def quoteSafeChar (c : Char) : Bool :=
  let n := c.toNat
  (65 ≤ n && n ≤ 90) || (97 ≤ n && n ≤ 122) || (48 ≤ n && n ≤ 57) ||
  n == 95 || n == 46 || n == 45 || n == 126 || n == 47

/-- `%XX` percent-escape of one byte, uppercase hex as `urllib.parse.quote`
produces. -/
def percentByte (n : Nat) : String :=
  String.mk ['%', hexU (n / 16), hexU (n % 16)]

/-- `urllib.parse.quote(s)` with the default `safe='/'`: safe characters kept,
every other character percent-encoded per UTF-8 byte. -/
def urllib_quote (s : String) : String :=
  String.join (s.data.map fun c =>
    if quoteSafeChar c then String.singleton c
    else String.join ((utf8Bytes c).map percentByte))

/-- ASCII lowercasing of one character, as Python `str.lower` acts on the
ASCII strings used by the SDK (HTTP method names, `str(True)`/`str(False)`). -/
def charLower (c : Char) : Char :=
  if c.toNat < 91 && 65 ≤ c.toNat then Char.ofNat (c.toNat + 32) else c

/-- Python `s.lower()` restricted to ASCII. -/
def py_lower (s : String) : String := ⟨s.data.map charLower⟩

/-- One value of `HttpClient._serialize_query_params`' loop body: `None` is
skipped, dicts and lists become percent-encoded compact JSON, booleans become
`str(value).lower()`, everything else `str(value)`. -/
def serialize_query_value : Value → Option String
  | .vNull => none
  | .vObj fs => some (urllib_quote (json_dumps (.vObj fs)))
  | .vArr xs => some (urllib_quote (json_dumps (.vArr xs)))
  | .vBool b => some (py_lower (pyStr (.vBool b)))
  | .vInt n => some (pyStr (.vInt n))
  | .vStr s => some (pyStr (.vStr s))

/-- `HttpClient._serialize_query_params`: serialize each entry in iteration
order, dropping `None` values. -/
def serialize_query_params (params : List (String × Value)) : List (String × String) :=
  params.filterMap fun kv => (serialize_query_value kv.2).map fun s => (kv.1, s)

/-! ## Dispatch layer: `Client._create_operation_method` and `Client.__getattr__` -/

/-- One entry of the generated operations map: `path` (with `\x7bname\x7d`
placeholders), `method`, and the optional `pathParams` list (default `[]`). -/
structure OperationConfig where
  path : String
  method : String
  pathParams : List String
deriving DecidableEq

/-- Remove a key from a Python-dict association list (`dict.pop`). -/
def removeKey (k : String) (l : List (String × Value)) : List (String × Value) :=
  l.filter fun kv => !(kv.1 == k)

/-- The loop `for param_name in path_params: if param_name in remaining_params:
path_params_dict[param_name] = remaining_params.pop(param_name)`.
Returns `(path_params_dict, remaining_params)`, both in insertion order. -/
def extract_path_params : List String → List (String × Value) →
    List (String × Value) × List (String × Value)
  | [], kwargs => ([], kwargs)
  | p :: ps, kwargs =>
    match kwargs.lookup p with
    | some v =>
      let r := extract_path_params ps (removeKey p kwargs)
      ((p, v) :: r.1, r.2)
    | none => extract_path_params ps kwargs

/-- Fuel-indexed scan for Python's `str.replace`: replace every
non-overlapping occurrence of `pat` left to right. The fuel is the length of
the subject string, which bounds the number of steps. -/
def replaceFuel : Nat → List Char → List Char → List Char → List Char
  | 0, s, _, _ => s
  | _ + 1, [], _, _ => []
  | fuel + 1, c :: rest, pat, rep =>
    if pat.isPrefixOf (c :: rest) then
      rep ++ replaceFuel fuel (List.drop pat.length (c :: rest)) pat rep
    else
      c :: replaceFuel fuel rest pat rep

/-- Python `s.replace(pat, rep)` for a nonempty pattern (the patterns used by
the SDK are `"\x7b" ++ name ++ "\x7d"`, never empty). -/
def str_replace (s pat rep : String) : String :=
  if pat.isEmpty then s else ⟨replaceFuel s.data.length s.data pat.data rep.data⟩

/-- The loop `for param_name, param_value in path_params_dict.items():
final_path = final_path.replace(f'\x7b\x7bparam_name\x7d\x7d', str(param_value))`. -/
def subst_path_params (path : String) (pathParamsDict : List (String × Value)) : String :=
  pathParamsDict.foldl
    (fun acc kv => str_replace acc ("\x7b" ++ kv.1 ++ "\x7d") (pyStr kv.2)) path

/-- Errors the SDK can raise: Python `ValueError` (configuration),
`AttributeError` (unknown operation), and the SDK's `ApiError` (transport). -/
inductive SdkError where
  | valueError : String → SdkError
  | attributeError : String → SdkError
  | apiError : String → SdkError
deriving DecidableEq

/-- The HTTP request an operation call hands to the transport: the dispatched
verb, the substituted path, the serialized query parameters (GET/DELETE), and
the JSON body (POST/PUT/PATCH). -/
structure HttpRequest where
  verb : String
  path : String
  query : List (String × String)
  body : Option (List (String × Value))

/-- The closure built by `Client._create_operation_method`, composed with
`_make_request`'s query serialization: split kwargs into path substitutions
and the remainder, substitute the path template, and route the remainder to
query parameters (GET/DELETE) or JSON body (POST/PUT/PATCH); any other method
raises `ValueError` before any transport call. -/
def operation_method (cfg : OperationConfig) (kwargs : List (String × Value)) :
    Except SdkError HttpRequest :=
  let method := py_lower cfg.method
  let extracted := extract_path_params cfg.pathParams kwargs
  let finalPath := subst_path_params cfg.path extracted.1
  let remaining := extracted.2
  if method == "get" then
    .ok ⟨"GET", finalPath, serialize_query_params remaining, none⟩
  else if method == "post" then
    .ok ⟨"POST", finalPath, [], some remaining⟩
  else if method == "put" then
    .ok ⟨"PUT", finalPath, [], some remaining⟩
  else if method == "patch" then
    .ok ⟨"PATCH", finalPath, [], some remaining⟩
  else if method == "delete" then
    .ok ⟨"DELETE", finalPath, serialize_query_params remaining, none⟩
  else
    .error (.valueError ("Unsupported HTTP method: " ++ method))

/-- The transport calls an invocation performs: exactly one on success, none
when the dispatcher raises before reaching `self.http`. -/
def transport_calls : Except SdkError HttpRequest → List HttpRequest
  | .ok r => [r]
  | .error _ => []

/-- Client state: the loaded operations map and the instance attributes set by
`setattr` in `__getattr__` (the memoization cache of resolved operations). -/
structure ClientState where
  opsMap : List (String × OperationConfig)
  cache : List (String × OperationConfig)

/-- Attribute access for an operation name. Python first consults the instance
dictionary (the cache); only on a miss is `__getattr__` invoked, which looks
the name up in the operations map, builds the method, caches it with
`setattr`, and returns it — or raises `AttributeError` when absent. -/
def client_getattr (st : ClientState) (name : String) :
    Except SdkError (OperationConfig × ClientState) :=
  match st.cache.lookup name with
  | some cfg => .ok (cfg, st)
  | none =>
    match st.opsMap.lookup name with
    | some cfg => .ok (cfg, { st with cache := (name, cfg) :: st.cache })
    | none =>
      .error (.attributeError ("'Client' has no attribute '" ++ name ++ "'"))

/-- One full invocation `client.<name>(**kwargs)`: resolve the attribute, then
run the operation method. On resolution failure no operation method runs. -/
def client_invoke (st : ClientState) (name : String) (kwargs : List (String × Value)) :
    Except SdkError HttpRequest × ClientState :=
  match client_getattr st name with
  | .error e => (.error e, st)
  | .ok (cfg, st') => (operation_method cfg kwargs, st')

/-- Python truthiness of an optional string: `None` and `""` are falsy. -/
def pyTruthyStr : Option String → Bool
  | none => false
  | some s => !s.isEmpty

/-- `Client.__init__`: raises `ValueError` unless a truthy token is supplied,
then builds the `HttpClient` and loads the operations map. The second
component lists the transport calls made during construction — `__init__`
never calls `session.request`, so it is always empty. -/
def client_init (apiToken : Option String) (opsMap : List (String × OperationConfig)) :
    Except SdkError ClientState × List HttpRequest :=
  if pyTruthyStr apiToken then (.ok ⟨opsMap, []⟩, [])
  else (.error (.valueError "api_token is required"), [])

/-! ## Transport response handling: `HttpClient._make_request` -/

/-- An HTTP response as seen by `_make_request`: status code, reason phrase,
body text, and the result of the library's `response.json()` call on that body
(`none` when it raises `json.JSONDecodeError`). -/
structure HttpResponse where
  status : Nat
  reason : String
  text : String
  jsonParsed : Option Value

/-- `requests.Response.raise_for_status`: an `HTTPError` for 4xx ("Client
Error") and 5xx ("Server Error") statuses only; `none` for anything else. -/
def raise_for_status_error (resp : HttpResponse) : Option String :=
  if 400 ≤ resp.status && resp.status < 500 then
    some (toString resp.status ++ " Client Error: " ++ resp.reason)
  else if 500 ≤ resp.status && resp.status < 600 then
    some (toString resp.status ++ " Server Error: " ++ resp.reason)
  else none

/-- The response-handling tail of `HttpClient._make_request`:
`raise_for_status` failures (a `requests.exceptions.RequestException`) are
re-raised as `ApiError(f"Request failed: ...")`; otherwise the JSON-parsed
body is returned, falling back to
`\x7b'data': response.text, 'status': response.status_code\x7d` when the body
is not JSON. -/
def make_request_response (resp : HttpResponse) : Except SdkError Value :=
  match raise_for_status_error resp with
  | some msg => .error (.apiError ("Request failed: " ++ msg))
  | none =>
    match resp.jsonParsed with
    | some v => .ok v
    | none => .ok (.vObj [("data", .vStr resp.text), ("status", .vInt (Int.ofNat resp.status))])

/-! ## Retry configuration: the `Retry(...)` strategy in `HttpClient.__init__` -/

/-- `Retry(total=3, ...)`: the retry budget. -/
def retry_total : Nat := 3

/-- `status_forcelist=[429, 500, 502, 503, 504]`. -/
def retry_status_forcelist : List Nat := [429, 500, 502, 503, 504]

/-- `allowed_methods=["HEAD", "GET", "OPTIONS", "POST", "PUT", "DELETE"]`. -/
def retry_allowed_methods : List String :=
  ["HEAD", "GET", "OPTIONS", "POST", "PUT", "DELETE"]

/-- `backoff_factor=1`. -/
def backoff_factor : Nat := 1

/-- urllib3's `Retry.BACKOFF_MAX` cap, in seconds. -/
def BACKOFF_MAX : Nat := 120

/-- urllib3's status-based retry decision for a returned response, with the
strategy configured in `HttpClient.__init__`: a retry happens iff the request
method is in `allowed_methods` and the status is in `status_forcelist`. -/
def is_retried_status (method : String) (status : Nat) : Bool :=
  retry_allowed_methods.contains method && retry_status_forcelist.contains status

/-- urllib3's `Retry.get_backoff_time` with `backoff_factor=1`: zero until the
second consecutive error, then `backoff_factor * 2 ** (n - 1)` capped at
`BACKOFF_MAX`. -/
def get_backoff_time (consecutiveErrors : Nat) : Nat :=
  if consecutiveErrors ≤ 1 then 0
  else min BACKOFF_MAX (backoff_factor * 2 ^ (consecutiveErrors - 1))

/-! ## Theorems -/

/-- C1: For every operation descriptor and call-argument mapping, invoking the
operation pulls each `pathParams` name out of the arguments (when present),
substitutes it into the path template at the matching placeholder by literal
string replacement, and sends the remaining arguments as query parameters for
GET/DELETE and as a JSON body for POST/PUT/PATCH; in particular the template
`/v2/companies/\x7bdomain\x7d` called with `domain="x.com", size=5` produces
path `/v2/companies/x.com` with query `size=5` serialized as `"5"`. -/
theorem c1_path_substitution_and_routing :
    (∀ cfg kwargs, py_lower cfg.method = "get" →
      operation_method cfg kwargs =
        .ok ⟨"GET",
          subst_path_params cfg.path (extract_path_params cfg.pathParams kwargs).1,
          serialize_query_params (extract_path_params cfg.pathParams kwargs).2, none⟩) ∧
    (∀ cfg kwargs, py_lower cfg.method = "delete" →
      operation_method cfg kwargs =
        .ok ⟨"DELETE",
          subst_path_params cfg.path (extract_path_params cfg.pathParams kwargs).1,
          serialize_query_params (extract_path_params cfg.pathParams kwargs).2, none⟩) ∧
    (∀ cfg kwargs, py_lower cfg.method = "post" →
      operation_method cfg kwargs =
        .ok ⟨"POST",
          subst_path_params cfg.path (extract_path_params cfg.pathParams kwargs).1,
          [], some (extract_path_params cfg.pathParams kwargs).2⟩) ∧
    (∀ cfg kwargs, py_lower cfg.method = "put" →
      operation_method cfg kwargs =
        .ok ⟨"PUT",
          subst_path_params cfg.path (extract_path_params cfg.pathParams kwargs).1,
          [], some (extract_path_params cfg.pathParams kwargs).2⟩) ∧
    (∀ cfg kwargs, py_lower cfg.method = "patch" →
      operation_method cfg kwargs =
        .ok ⟨"PATCH",
          subst_path_params cfg.path (extract_path_params cfg.pathParams kwargs).1,
          [], some (extract_path_params cfg.pathParams kwargs).2⟩) ∧
    (operation_method ⟨"/v2/companies/\x7bdomain\x7d", "GET", ["domain"]⟩
        [("domain", .vStr "x.com"), ("size", .vInt 5)] =
      .ok ⟨"GET", "/v2/companies/x.com", [("size", "5")], none⟩) := by
  refine ⟨?_, ?_, ?_, ?_, ?_, ?_⟩
  · intro cfg kwargs h; simp [operation_method, h]
  · intro cfg kwargs h; simp [operation_method, h]
  · intro cfg kwargs h; simp [operation_method, h]
  · intro cfg kwargs h; simp [operation_method, h]
  · intro cfg kwargs h; simp [operation_method, h]
  · rfl

/-- Witness for C1, instantiating each routing conjunct at a concrete
descriptor and argument list. -/
theorem c1_path_substitution_and_routing_witness :
    operation_method ⟨"/v2/companies/\x7bdomain\x7d", "GET", ["domain"]⟩
        [("domain", .vStr "x.com"), ("size", .vInt 5)] =
      .ok ⟨"GET", "/v2/companies/x.com", [("size", "5")], none⟩ ∧
    operation_method ⟨"/v1/items/\x7bid\x7d", "DELETE", ["id"]⟩ [("id", .vInt 7)] =
      .ok ⟨"DELETE", "/v1/items/7", [], none⟩ ∧
    operation_method ⟨"/v2/actions/search", "POST", []⟩ [("query", .vStr "acme")] =
      .ok ⟨"POST", "/v2/actions/search", [], some [("query", .vStr "acme")]⟩ ∧
    operation_method ⟨"/v1/items/\x7bid\x7d", "PUT", ["id"]⟩ [("id", .vInt 7), ("name", .vStr "a")] =
      .ok ⟨"PUT", "/v1/items/7", [], some [("name", .vStr "a")]⟩ ∧
    operation_method ⟨"/v1/items/\x7bid\x7d", "PATCH", ["id"]⟩ [("id", .vInt 7), ("name", .vStr "a")] =
      .ok ⟨"PATCH", "/v1/items/7", [], some [("name", .vStr "a")]⟩ := by
  refine ⟨?_, ?_, ?_, ?_, ?_⟩
  · exact c1_path_substitution_and_routing.1 _ _ rfl
  · exact c1_path_substitution_and_routing.2.1 _ _ rfl
  · exact c1_path_substitution_and_routing.2.2.1 _ _ rfl
  · exact c1_path_substitution_and_routing.2.2.2.1 _ _ rfl
  · exact c1_path_substitution_and_routing.2.2.2.2.1 _ _ rfl

/-- C2: Query serialization maps strings and numbers to their string form,
booleans to exactly the lowercase `"true"`/`"false"`, omits `None`-valued
keys, and maps objects and arrays to their compact JSON text percent-encoded
as a single string, e.g. `\x7b"key":"value"\x7d` becomes
`%7B%22key%22%3A%22value%22%7D`; no `None` value ever appears in the result. -/
theorem c2_query_serialization :
    (∀ s, serialize_query_value (.vStr s) = some s) ∧
    (∀ n : Int, serialize_query_value (.vInt n) = some (toString n)) ∧
    (∀ b, serialize_query_value (.vBool b) = some (if b then "true" else "false")) ∧
    (serialize_query_value .vNull = none) ∧
    (∀ fs, serialize_query_value (.vObj fs) = some (urllib_quote (json_dumps (.vObj fs)))) ∧
    (∀ xs, serialize_query_value (.vArr xs) = some (urllib_quote (json_dumps (.vArr xs)))) ∧
    (serialize_query_value (.vObj [("key", .vStr "value")]) =
      some "%7B%22key%22%3A%22value%22%7D") ∧
    (∀ params, (serialize_query_params params).map Prod.fst =
      (params.filter fun kv => !kv.2.isNull).map Prod.fst) ∧
    (∀ params k s, (k, s) ∈ serialize_query_params params →
      ∃ v, (k, v) ∈ params ∧ v.isNull = false ∧ serialize_query_value v = some s) := by
  refine ⟨fun s => rfl, fun n => rfl, ?_, rfl, fun fs => rfl, fun xs => rfl, rfl, ?_, ?_⟩
  · intro b; cases b <;> rfl
  · intro params
    induction params with
    | nil => rfl
    | cons kv rest ih =>
      obtain ⟨k, v⟩ := kv
      cases v <;>
        simp [serialize_query_params, serialize_query_value, List.filter_cons, Value.isNull,
          List.filterMap_cons] <;>
        simpa [serialize_query_params] using ih
  · intro params k s hmem
    simp only [serialize_query_params] at hmem
    rw [List.mem_filterMap] at hmem
    obtain ⟨⟨k', v⟩, hkv, hf⟩ := hmem
    cases hv : serialize_query_value v with
    | none => rw [hv] at hf; simp at hf
    | some s' =>
      rw [hv] at hf
      simp only [Option.map_some', Option.some.injEq, Prod.mk.injEq] at hf
      obtain ⟨hk, hs⟩ := hf
      refine ⟨v, ?_, ?_, ?_⟩
      · rw [← hk]; exact hkv
      · cases v <;> simp_all [serialize_query_value, Value.isNull]
      · rw [hv, hs]

/-- Witness for C2, instantiating the universally quantified conjuncts at
concrete parameter maps and the membership implication at a concrete entry. -/
theorem c2_query_serialization_witness :
    serialize_query_value (.vStr "x.com") = some "x.com" ∧
    serialize_query_value (.vInt 5) = some "5" ∧
    serialize_query_value (.vBool true) = some "true" ∧
    serialize_query_value (.vObj [("key", .vStr "value")]) =
      some (urllib_quote (json_dumps (.vObj [("key", .vStr "value")]))) ∧
    (serialize_query_params [("a", .vInt 5), ("b", .vNull)]).map Prod.fst =
      (([("a", Value.vInt 5), ("b", Value.vNull)]).filter
        fun kv => !kv.2.isNull).map Prod.fst ∧
    ∃ v, ("a", v) ∈ [("a", Value.vInt 5)] ∧ v.isNull = false ∧
      serialize_query_value v = some "5" := by
  refine ⟨c2_query_serialization.1 "x.com", c2_query_serialization.2.1 5, ?_, ?_, ?_, ?_⟩
  · exact c2_query_serialization.2.2.1 true
  · exact c2_query_serialization.2.2.2.2.1 [("key", .vStr "value")]
  · exact c2_query_serialization.2.2.2.2.2.2.2.1 [("a", .vInt 5), ("b", .vNull)]
  · exact c2_query_serialization.2.2.2.2.2.2.2.2 [("a", .vInt 5)] "a" "5" (by decide)

/-- C3: Invoking a name not present in the operations table fails with an
`AttributeError`-style unknown-operation error, leaves the client unchanged,
and makes no transport call. -/
theorem c3_unknown_operation (ops : List (String × OperationConfig)) (name : String)
    (kwargs : List (String × Value)) (h : ops.lookup name = none) :
    (client_invoke ⟨ops, []⟩ name kwargs).1 =
      .error (.attributeError ("'Client' has no attribute '" ++ name ++ "'")) ∧
    (client_invoke ⟨ops, []⟩ name kwargs).2 = ⟨ops, []⟩ ∧
    transport_calls (client_invoke ⟨ops, []⟩ name kwargs).1 = [] := by
  refine ⟨?_, ?_, ?_⟩ <;> simp [client_invoke, client_getattr, h, transport_calls]

/-- Witness for C3 at an empty operations table and the name
`searchCompanies`. -/
theorem c3_unknown_operation_witness :
    (client_invoke ⟨[], []⟩ "searchCompanies" []).1 =
      .error (.attributeError "'Client' has no attribute 'searchCompanies'") ∧
    (client_invoke ⟨[], []⟩ "searchCompanies" []).2 = ⟨[], []⟩ ∧
    transport_calls (client_invoke ⟨[], []⟩ "searchCompanies" []).1 = [] :=
  c3_unknown_operation [] "searchCompanies" [] rfl

/-- C4: Construction with an absent (`None`) or empty API token fails with a
`ValueError` and performs no transport call; with any non-empty token it
succeeds. -/
theorem c4_token_required :
    (∀ ops, client_init none ops = (.error (.valueError "api_token is required"), [])) ∧
    (∀ ops, client_init (some "") ops = (.error (.valueError "api_token is required"), [])) ∧
    (∀ t ops, t ≠ "" → client_init (some t) ops = (.ok ⟨ops, []⟩, [])) ∧
    (∀ tok ops, (client_init tok ops).2 = []) := by
  refine ⟨fun ops => rfl, fun ops => rfl, ?_, ?_⟩
  · intro t ops ht
    have : t.isEmpty = false := by
      cases he : t.isEmpty
      · rfl
      · exact absurd ((String.isEmpty_iff t).mp he) ht
    simp [client_init, pyTruthyStr, this]
  · intro tok ops
    cases tok with
    | none => rfl
    | some t => simp [client_init, pyTruthyStr]; split <;> rfl

/-- Witness for C4 at the concrete token `"tok-123"`. -/
theorem c4_token_required_witness :
    client_init none [] = (.error (.valueError "api_token is required"), []) ∧
    client_init (some "") [] = (.error (.valueError "api_token is required"), []) ∧
    client_init (some "tok-123") [] = (.ok ⟨[], []⟩, []) ∧
    (client_init (some "tok-123") []).2 = [] :=
  ⟨c4_token_required.1 [], c4_token_required.2.1 [],
   c4_token_required.2.2.1 "tok-123" [] (by decide),
   c4_token_required.2.2.2 (some "tok-123") []⟩

/-- C5 counterexample: the status 304 is not 2xx, yet `raise_for_status`
raises only for 4xx/5xx, so `_make_request` returns the non-JSON fallback
payload instead of failing — refuting "every non-2xx status fails". -/
theorem c5_counterexample_status_304 :
    make_request_response ⟨304, "Not Modified", "cached", none⟩ =
      .ok (.vObj [("data", .vStr "cached"), ("status", .vInt 304)]) := rfl

/-- C5 (amended): for every response with a 4xx or 5xx status, the call fails
with the single wrapped `ApiError` whose message extends `"Request failed"`
and embeds the underlying `raise_for_status` cause; the error is returned, not
swallowed. -/
theorem c5_request_failed_wrapping (resp : HttpResponse)
    (h4 : 400 ≤ resp.status) (h6 : resp.status < 600) :
    ∃ cause, raise_for_status_error resp = some cause ∧
      make_request_response resp = .error (.apiError ("Request failed: " ++ cause)) ∧
      ∃ rest, "Request failed: " ++ cause = "Request failed" ++ rest := by
  by_cases h5 : resp.status < 500
  · refine ⟨toString resp.status ++ " Client Error: " ++ resp.reason, ?_, ?_, ?_⟩
    · simp [raise_for_status_error, h4, h5]
    · simp [make_request_response, raise_for_status_error, h4, h5]
    · exact ⟨": " ++ (toString resp.status ++ " Client Error: " ++ resp.reason),
        (String.append_assoc "Request failed" ": "
          (toString resp.status ++ " Client Error: " ++ resp.reason)).symm⟩
  · have h5' : 500 ≤ resp.status := by omega
    have h4' : ¬(resp.status < 500) := h5
    refine ⟨toString resp.status ++ " Server Error: " ++ resp.reason, ?_, ?_, ?_⟩
    · simp [raise_for_status_error, h4, h4', h5', h6]
    · simp [make_request_response, raise_for_status_error, h4, h4', h5', h6]
    · exact ⟨": " ++ (toString resp.status ++ " Server Error: " ++ resp.reason),
        (String.append_assoc "Request failed" ": "
          (toString resp.status ++ " Server Error: " ++ resp.reason)).symm⟩

/-- Witness for the amended C5 at a concrete 404 response. -/
theorem c5_request_failed_wrapping_witness :
    ∃ cause, raise_for_status_error ⟨404, "Not Found", "nf", none⟩ = some cause ∧
      make_request_response ⟨404, "Not Found", "nf", none⟩ =
        .error (.apiError ("Request failed: " ++ cause)) ∧
      ∃ rest, "Request failed: " ++ cause = "Request failed" ++ rest :=
  c5_request_failed_wrapping ⟨404, "Not Found", "nf", none⟩ (by decide) (by decide)

/-- C6: For every response with a 2xx status, the JSON-parsed body is returned
unchanged; when JSON parsing fails the call does not raise and returns
`\x7bdata: <raw text>, status: <code>\x7d`. -/
theorem c6_success_body_parsing (resp : HttpResponse)
    (h2 : 200 ≤ resp.status) (h3 : resp.status < 300) :
    (∀ v, resp.jsonParsed = some v → make_request_response resp = .ok v) ∧
    (resp.jsonParsed = none →
      make_request_response resp =
        .ok (.vObj [("data", .vStr resp.text), ("status", .vInt (Int.ofNat resp.status))])) := by
  have hr : raise_for_status_error resp = none := by
    have hA : ¬(400 ≤ resp.status) := by omega
    have hB : ¬(500 ≤ resp.status) := by omega
    simp [raise_for_status_error, hA, hB]
  constructor
  · intro v hv; simp [make_request_response, hr, hv]
  · intro hv; simp [make_request_response, hr, hv]

/-- Witness for C6 at a concrete 200 JSON response and a concrete 200 non-JSON
response. -/
theorem c6_success_body_parsing_witness :
    make_request_response ⟨200, "OK", "\x7b\"a\":1\x7d", some (.vObj [("a", .vInt 1)])⟩ =
      .ok (.vObj [("a", .vInt 1)]) ∧
    make_request_response ⟨200, "OK", "pong", none⟩ =
      .ok (.vObj [("data", .vStr "pong"), ("status", .vInt 200)]) :=
  ⟨(c6_success_body_parsing ⟨200, "OK", "\x7b\"a\":1\x7d", some (.vObj [("a", .vInt 1)])⟩
      (by decide) (by decide)).1 _ rfl,
   (c6_success_body_parsing ⟨200, "OK", "pong", none⟩ (by decide) (by decide)).2 rfl⟩

/-- C7 counterexample: PATCH is one of the five dispatched verbs, 500 is in
the transient set, yet the configured `allowed_methods` list omits `"PATCH"`,
so a PATCH request returning 500 is not retried — refuting "regardless of
which of the five dispatched verbs". -/
theorem c7_counterexample_patch_not_retried :
    is_retried_status "PATCH" 500 = false := rfl

/-- C7 (amended): responses with transient status 429/500/502/503/504 are
retried, with exponential backoff doubling between consecutive errors, up to a
budget of 3 retries, for the dispatched verbs GET, POST, PUT and DELETE;
PATCH is absent from the configured `allowed_methods` and is never
status-retried; statuses outside the transient set are never retried. -/
theorem c7_retry_policy :
    retry_total = 3 ∧
    (∀ m, m ∈ ["GET", "POST", "PUT", "DELETE"] →
      ∀ s, s ∈ retry_status_forcelist → is_retried_status m s = true) ∧
    (∀ s, is_retried_status "PATCH" s = false) ∧
    (∀ m s, s ∉ ([429, 500, 502, 503, 504] : List Nat) → is_retried_status m s = false) ∧
    (∀ n, 2 ≤ n → 2 ^ n ≤ BACKOFF_MAX → get_backoff_time (n + 1) = 2 * get_backoff_time n) := by
  refine ⟨rfl, ?_, ?_, ?_, ?_⟩
  · intro m hm s hs
    fin_cases hm <;> fin_cases hs <;> rfl
  · intro s
    simp [is_retried_status, retry_allowed_methods]
  · intro m s hs
    have hc : retry_status_forcelist.contains s = false := by
      simp only [retry_status_forcelist, List.contains_eq_any_beq, List.any_eq_false]
      intro x hx
      simp only [beq_iff_eq]
      intro hxe
      exact hs (hxe ▸ hx)
    show (retry_allowed_methods.contains m && retry_status_forcelist.contains s) = false
    rw [hc, Bool.and_false]
  · intro n h2 hle
    have h1 : ¬(n + 1 ≤ 1) := by omega
    have h1' : ¬(n ≤ 1) := by omega
    have e : n - 1 + 1 = n := by omega
    have hle' : 2 ^ (n - 1) ≤ BACKOFF_MAX :=
      le_trans (Nat.pow_le_pow_right (by norm_num) (by omega)) hle
    have hdouble : 2 * 2 ^ (n - 1) = 2 ^ n := by
      rw [← pow_succ' 2 (n - 1), e]
    simp only [get_backoff_time, backoff_factor, one_mul, if_neg h1, if_neg h1',
      Nat.add_sub_cancel]
    rw [Nat.min_eq_right hle, Nat.min_eq_right hle', hdouble]

/-- Witness for the amended C7: the GET/500 case is retried, the backoff
doubles from the second to the third consecutive error, and 418 is never
retried. -/
theorem c7_retry_policy_witness :
    is_retried_status "GET" 500 = true ∧
    is_retried_status "POST" 418 = false ∧
    get_backoff_time 3 = 2 * get_backoff_time 2 :=
  ⟨c7_retry_policy.2.1 "GET" (by decide) 500 (by decide),
   c7_retry_policy.2.2.2.1 "POST" 418 (by decide),
   c7_retry_policy.2.2.2.2 2 (by decide) (by decide)⟩

/-- C8: An operation descriptor whose method is outside
GET/POST/PUT/PATCH/DELETE fails fast with the `ValueError` configuration
error, before any transport call is made; with no request there is nothing
for the retry machinery to act on. -/
theorem c8_unsupported_method (cfg : OperationConfig) (kwargs : List (String × Value))
    (h : py_lower cfg.method ∉ ["get", "post", "put", "patch", "delete"]) :
    operation_method cfg kwargs =
      .error (.valueError ("Unsupported HTTP method: " ++ py_lower cfg.method)) ∧
    transport_calls (operation_method cfg kwargs) = [] := by
  simp only [List.mem_cons, List.mem_singleton, not_or] at h
  obtain ⟨h1, h2, h3, h4, h5⟩ := h
  have e : operation_method cfg kwargs =
      .error (.valueError ("Unsupported HTTP method: " ++ py_lower cfg.method)) := by
    simp [operation_method, h1, h2, h3, h4, h5]
  exact ⟨e, by rw [e]; rfl⟩

/-- Witness for C8 at a descriptor whose method is `OPTIONS`. -/
theorem c8_unsupported_method_witness :
    operation_method ⟨"/health", "OPTIONS", []⟩ [] =
      .error (.valueError ("Unsupported HTTP method: " ++ py_lower "OPTIONS")) ∧
    transport_calls (operation_method ⟨"/health", "OPTIONS", []⟩ []) = [] :=
  c8_unsupported_method ⟨"/health", "OPTIONS", []⟩ [] (by decide)

/-- `List.lookup` after `removeKey`: the removed key is gone, every other key
is unchanged. -/
theorem lookup_removeKey (k p : String) (l : List (String × Value)) :
    (removeKey p l).lookup k = if k = p then none else l.lookup k := by
  induction l with
  | nil => simp [removeKey]
  | cons kv rest ih =>
    obtain ⟨k', v⟩ := kv
    by_cases hp : k' = p
    · subst hp
      by_cases hk : k = k'
      · subst hk
        simp [removeKey, List.filter_cons, List.lookup_cons] at ih ⊢
        simpa using ih
      · simp only [removeKey, List.filter_cons] at ih ⊢
        simp only [beq_self_eq_true, Bool.not_true, if_false, List.lookup_cons]
        have : (k == k') = false := by simp [hk]
        simp [this, ih]
    · by_cases hk : k = k'
      · subst hk
        simp only [removeKey, List.filter_cons] at ih ⊢
        have h1 : (k == p) = false := by simp [hp]
        simp [h1, List.lookup_cons, hp]
      · simp only [removeKey, List.filter_cons] at ih ⊢
        have h1 : (k' == p) = false := by simp [hp]
        have h2 : (k == k') = false := by simp [hk]
        simp [h1, h2, List.lookup_cons, ih]

/-- C9: The first resolution of an operation name caches the resolved
configuration on the client, every later access returns the cached one with
the state unchanged, a cached operation behaves identically to a freshly
resolved one, and a cache entry, once present, survives any further
invocation — the only transition is unresolved to resolved. -/
theorem c9_memoized_resolution (ops : List (String × OperationConfig)) (name : String)
    (cfg : OperationConfig) (kwargs kwargs' : List (String × Value))
    (h : ops.lookup name = some cfg) :
    client_getattr ⟨ops, []⟩ name = .ok (cfg, ⟨ops, [(name, cfg)]⟩) ∧
    client_getattr ⟨ops, [(name, cfg)]⟩ name = .ok (cfg, ⟨ops, [(name, cfg)]⟩) ∧
    (client_invoke ⟨ops, [(name, cfg)]⟩ name kwargs).1 =
      (client_invoke ⟨ops, []⟩ name kwargs).1 ∧
    (∀ (st : ClientState) (name' : String), st.cache.lookup name = some cfg →
      (client_invoke st name' kwargs').2.cache.lookup name = some cfg) := by
  refine ⟨?_, ?_, ?_, ?_⟩
  · simp [client_getattr, h]
  · simp [client_getattr, List.lookup_cons]
  · simp [client_invoke, client_getattr, h, List.lookup_cons]
  · intro st name' hcache
    unfold client_invoke client_getattr
    cases hhit : st.cache.lookup name' with
    | some c => simp [hhit, hcache]
    | none =>
      cases hops : st.opsMap.lookup name' with
      | some c =>
        have hne : (name == name') = false := by
          cases hbe : name == name'
          · rfl
          · rw [beq_iff_eq] at hbe
            rw [hbe, hhit] at hcache
            exact absurd hcache (by simp)
        simp [hhit, hops, List.lookup_cons, hne, hcache]
      | none => simp [hhit, hops, hcache]

/-- Witness for C9 at a one-entry operations table. -/
theorem c9_memoized_resolution_witness :
    client_getattr ⟨[("fetchHealth", ⟨"/", "GET", []⟩)], []⟩ "fetchHealth" =
      .ok (⟨"/", "GET", []⟩,
        ⟨[("fetchHealth", ⟨"/", "GET", []⟩)], [("fetchHealth", ⟨"/", "GET", []⟩)]⟩) ∧
    client_getattr ⟨[("fetchHealth", ⟨"/", "GET", []⟩)], [("fetchHealth", ⟨"/", "GET", []⟩)]⟩
        "fetchHealth" =
      .ok (⟨"/", "GET", []⟩,
        ⟨[("fetchHealth", ⟨"/", "GET", []⟩)], [("fetchHealth", ⟨"/", "GET", []⟩)]⟩) ∧
    (client_invoke ⟨[("fetchHealth", ⟨"/", "GET", []⟩)], [("fetchHealth", ⟨"/", "GET", []⟩)]⟩
        "fetchHealth" []).1 =
      (client_invoke ⟨[("fetchHealth", ⟨"/", "GET", []⟩)], []⟩ "fetchHealth" []).1 ∧
    (∀ (st : ClientState) (name' : String),
      st.cache.lookup "fetchHealth" = some ⟨"/", "GET", []⟩ →
      (client_invoke st name' []).2.cache.lookup "fetchHealth" = some ⟨"/", "GET", []⟩) :=
  c9_memoized_resolution [("fetchHealth", ⟨"/", "GET", []⟩)] "fetchHealth"
    ⟨"/", "GET", []⟩ [] [] rfl

/-- C10: A path-parameter name listed in the descriptor but absent from the
call arguments is never extracted for substitution (so its placeholder is
left in the path verbatim), the call raises no error for the supported
methods, and supplied path-parameter values are substituted via their Python
string form, as on the concrete templates below. -/
theorem c10_missing_path_params :
    (∀ ps kwargs name, (kwargs : List (String × Value)).lookup name = none →
      ∀ kv ∈ (extract_path_params ps kwargs).1, kv.1 ≠ name) ∧
    (∀ ps kwargs kv, kv ∈ (extract_path_params ps kwargs).1 →
      kwargs.lookup kv.1 = some kv.2 ∧ kv.1 ∈ ps) ∧
    (∀ cfg kwargs, py_lower cfg.method ∈ ["get", "post", "put", "patch", "delete"] →
      ∃ req, operation_method cfg kwargs = .ok req) ∧
    (operation_method ⟨"/v2/companies/\x7bdomain\x7d", "GET", ["domain"]⟩ [("size", .vInt 5)] =
      .ok ⟨"GET", "/v2/companies/\x7bdomain\x7d", [("size", "5")], none⟩) ∧
    (operation_method ⟨"/v1/items/\x7bid\x7d", "GET", ["id"]⟩ [("id", .vInt 42)] =
      .ok ⟨"GET", "/v1/items/42", [], none⟩) := by
  refine ⟨?_, ?_, ?_, rfl, rfl⟩
  · intro ps
    induction ps with
    | nil => intro kwargs name _ kv hkv; simp [extract_path_params] at hkv
    | cons p rest ih =>
      intro kwargs name hname kv hkv
      simp only [extract_path_params] at hkv
      cases hp : kwargs.lookup p with
      | some v =>
        rw [hp] at hkv
        simp only [List.mem_cons] at hkv
        rcases hkv with hkv | hkv
        · subst hkv
          intro he
          rw [show p = name from he, hname] at hp
          exact Option.noConfusion hp
        · refine ih (removeKey p kwargs) name ?_ kv hkv
          rw [lookup_removeKey]
          split <;> [rfl; exact hname]
      | none =>
        rw [hp] at hkv
        exact ih kwargs name hname kv hkv
  · intro ps
    induction ps with
    | nil => intro kwargs kv hkv; simp [extract_path_params] at hkv
    | cons p rest ih =>
      intro kwargs kv hkv
      simp only [extract_path_params] at hkv
      cases hp : kwargs.lookup p with
      | some v =>
        rw [hp] at hkv
        simp only [List.mem_cons] at hkv
        rcases hkv with hkv | hkv
        · subst hkv; exact ⟨hp, List.mem_cons_self _ _⟩
        · obtain ⟨hl, hm⟩ := ih (removeKey p kwargs) kv hkv
          rw [lookup_removeKey] at hl
          by_cases he : kv.1 = p
          · rw [if_pos he] at hl; exact absurd hl (by simp)
          · rw [if_neg he] at hl; exact ⟨hl, List.mem_cons_of_mem _ hm⟩
      | none =>
        rw [hp] at hkv
        obtain ⟨hl, hm⟩ := ih kwargs kv hkv
        exact ⟨hl, List.mem_cons_of_mem _ hm⟩
  · intro cfg kwargs hmem
    simp only [List.mem_cons, List.not_mem_nil, or_false] at hmem
    rcases hmem with h | h | h | h | h
    · exact ⟨⟨"GET", subst_path_params cfg.path (extract_path_params cfg.pathParams kwargs).1,
        serialize_query_params (extract_path_params cfg.pathParams kwargs).2, none⟩,
        by simp [operation_method, h]⟩
    · exact ⟨⟨"POST", subst_path_params cfg.path (extract_path_params cfg.pathParams kwargs).1,
        [], some (extract_path_params cfg.pathParams kwargs).2⟩,
        by simp [operation_method, h]⟩
    · exact ⟨⟨"PUT", subst_path_params cfg.path (extract_path_params cfg.pathParams kwargs).1,
        [], some (extract_path_params cfg.pathParams kwargs).2⟩,
        by simp [operation_method, h]⟩
    · exact ⟨⟨"PATCH", subst_path_params cfg.path (extract_path_params cfg.pathParams kwargs).1,
        [], some (extract_path_params cfg.pathParams kwargs).2⟩,
        by simp [operation_method, h]⟩
    · exact ⟨⟨"DELETE", subst_path_params cfg.path (extract_path_params cfg.pathParams kwargs).1,
        serialize_query_params (extract_path_params cfg.pathParams kwargs).2, none⟩,
        by simp [operation_method, h]⟩

/-- Witness for C10: the general conjuncts instantiated at the concrete
template `/v2/companies/\x7bdomain\x7d` with the `domain` argument missing. -/
theorem c10_missing_path_params_witness :
    (∀ kv ∈ (extract_path_params ["domain"] [("size", Value.vInt 5)]).1, kv.1 ≠ "domain") ∧
    (∀ kv, kv ∈ (extract_path_params ["id"] [("id", Value.vInt 42)]).1 →
      ([("id", Value.vInt 42)] : List (String × Value)).lookup kv.1 = some kv.2 ∧
        kv.1 ∈ ["id"]) ∧
    (∃ req, operation_method ⟨"/v2/companies/\x7bdomain\x7d", "GET", ["domain"]⟩
      [("size", .vInt 5)] = .ok req) :=
  ⟨c10_missing_path_params.1 ["domain"] [("size", Value.vInt 5)] "domain" rfl,
   fun kv => c10_missing_path_params.2.1 ["id"] [("id", Value.vInt 42)] kv,
   c10_missing_path_params.2.2.1 ⟨"/v2/companies/\x7bdomain\x7d", "GET", ["domain"]⟩
     [("size", .vInt 5)] (by decide)⟩

end TheCompaniesApi
